import Mathlib

/-!
Verification of the LCA (Life Cycle Assessment) calculation pipeline of
the `lca-tool` repository, shallowly embedded in Lean 4.

Numbers are modelled as exact rationals (`ℚ`); JavaScript `Math.round` is
modelled as round-half-up; missing/absent numeric fields are modelled as
`Option ℚ` (with `parseFloat(x) || 0` coercing a missing field to 0, and
JS truthiness testing for `none` or `0`).

The embedded code follows:
- src/backend/routes/lca.js      (POST /api/lca/calculate and its helpers)
- src/backend/routes/data.js     (enrichMaterialData lookup)
- src/backend/routes/ai.js       (basicDataProcessing fallback and the
                                  seeded emission-factor table)
-/

set_option maxRecDepth 100000

namespace LCATool

/-- JS `Math.round`: round half toward positive infinity, `⌊x + 1/2⌋`. -/
def jsRound (q : ℚ) : ℤ := ⌊q + 1/2⌋

/-- `Math.round(x * 100) / 100`: round to two decimal places. -/
def round2 (q : ℚ) : ℚ := (jsRound (q * 100) : ℚ) / 100

/-- `parseFloat(x) || 0`: a missing numeric field is coerced to 0. -/
def jsNum (o : Option ℚ) : ℚ := o.getD 0

/-- JS truthiness test for an optional numeric field: falsy when the field
is absent or equal to 0. -/
def jsFalsy (o : Option ℚ) : Bool :=
  match o with
  | none => true
  | some q => q == 0

/-- `a || d` for an optional string field: falsy when absent or empty. -/
def jsStr (o : Option String) (d : String) : String :=
  match o with
  | none => d
  | some s => if s == "" then d else s

/-- Substring containment on lists of characters (used to model both the
SQL `LIKE '%needle%'` pattern and JS `String.prototype.includes`). -/
def listContainsSub : List Char → List Char → Bool
  | [], needle => needle.isEmpty
  | c :: tl, needle => List.isPrefixOf needle (c :: tl) || listContainsSub tl needle

/-- String containment: `needle` occurs as a contiguous substring of `hay`. -/
def strContains (hay needle : String) : Bool :=
  listContainsSub hay.data needle.data

/-- Case-insensitive string equality, modelling SQL
`LOWER(a) = LOWER(b)` and the JS `toLowerCase` comparisons. -/
def lowerEq (a b : String) : Bool := a.toLower == b.toLower

/-- One row of the `emission_factors` table
(src/backend/utils/database.js, `insertDefaultEmissionFactors`). -/
structure EmissionFactor where
  material_type : String
  category : String
  co2_factor : ℚ
  energy_factor : ℚ
  transport_factor : ℚ
  unit : String
  source : String
deriving DecidableEq

/-- The seeded emission-factor table, in insertion (rowid) order
(src/backend/utils/database.js lines 462-493). -/
def factorTable : List EmissionFactor :=
  [ { material_type := "Steel", category := "Metals", co2_factor := 185/100, energy_factor := 24, transport_factor := 1/10, unit := "kg", source := "Industry Average" }
  , { material_type := "Aluminum", category := "Metals", co2_factor := 824/100, energy_factor := 154, transport_factor := 1/10, unit := "kg", source := "Industry Average" }
  , { material_type := "Copper", category := "Metals", co2_factor := 295/100, energy_factor := 42, transport_factor := 1/10, unit := "kg", source := "Industry Average" }
  , { material_type := "PET Plastic", category := "Plastics", co2_factor := 225/100, energy_factor := 76, transport_factor := 1/20, unit := "kg", source := "PlasticsEurope" }
  , { material_type := "HDPE", category := "Plastics", co2_factor := 195/100, energy_factor := 767/10, transport_factor := 1/20, unit := "kg", source := "PlasticsEurope" }
  , { material_type := "PVC", category := "Plastics", co2_factor := 241/100, energy_factor := 575/10, transport_factor := 1/20, unit := "kg", source := "PlasticsEurope" }
  , { material_type := "Concrete", category := "Construction", co2_factor := 13/100, energy_factor := 1, transport_factor := 1/50, unit := "kg", source := "Cement Association" }
  , { material_type := "Brick", category := "Construction", co2_factor := 24/100, energy_factor := 3, transport_factor := 3/100, unit := "kg", source := "Building Research" }
  , { material_type := "Wood", category := "Construction", co2_factor := -9/10, energy_factor := 5/2, transport_factor := 1/25, unit := "kg", source := "Forest Products" }
  , { material_type := "Glass", category := "Glass", co2_factor := 85/100, energy_factor := 15, transport_factor := 2/25, unit := "kg", source := "Glass Manufacturing" }
  , { material_type := "Ceramic", category := "Ceramics", co2_factor := 64/100, energy_factor := 12, transport_factor := 3/50, unit := "kg", source := "Ceramic Industry" }
  , { material_type := "Cotton", category := "Textiles", co2_factor := 589/100, energy_factor := 55, transport_factor := 3/100, unit := "kg", source := "Textile Exchange" }
  , { material_type := "Polyester", category := "Textiles", co2_factor := 952/100, energy_factor := 125, transport_factor := 3/100, unit := "kg", source := "Textile Exchange" }
  , { material_type := "Silicon", category := "Electronics", co2_factor := 13/10, energy_factor := 230, transport_factor := 1/10, unit := "kg", source := "Semiconductor Industry" }
  , { material_type := "Gold", category := "Electronics", co2_factor := 12800, energy_factor := 240000, transport_factor := 1/5, unit := "kg", source := "Mining Industry" }
  , { material_type := "Paper", category := "Paper", co2_factor := 93/100, energy_factor := 20, transport_factor := 1/25, unit := "kg", source := "Paper Industry" }
  , { material_type := "Cardboard", category := "Paper", co2_factor := 7/10, energy_factor := 15, transport_factor := 1/25, unit := "kg", source := "Paper Industry" } ]

/-- `SELECT * FROM emission_factors WHERE LOWER(material_type) = LOWER(?)`:
first row (in rowid order) whose material_type matches case-insensitively.
Used by both lca.js line 29 and data.js line 163. -/
def findExact (t : String) : Option EmissionFactor :=
  factorTable.find? (fun f => lowerEq f.material_type t)

/-- The hardcoded default factor object of lca.js lines 36-41: only the
four fields below appear in the source object; the remaining record
fields are filled with inert blanks. -/
def lcaDefaultFactor : EmissionFactor :=
  { material_type := "", category := "Unknown", co2_factor := 1,
    energy_factor := 10, transport_factor := 1/20, unit := "", source := "" }

/-- The default factor object of data.js lines 179-185 (has a `unit`). -/
def dataDefaultFactor : EmissionFactor :=
  { material_type := "", category := "Unknown", co2_factor := 1,
    energy_factor := 10, transport_factor := 1/20, unit := "kg", source := "" }

/-- The warning pushed by lca.js line 42 for an unknown material type. -/
def unknownWarning (t : String) : String :=
  s!"Unknown material: {t}. Using estimated factors."

/-- Emission-factor lookup of the calculate route (lca.js lines 29-43):
exact case-insensitive match, otherwise the hardcoded defaults plus a
warning. There is no substring stage on this path. -/
def lcaLookup (t : String) : EmissionFactor × Option String :=
  match findExact t with
  | some f => (f, none)
  | none => (lcaDefaultFactor, some (unknownWarning t))

/-- Rows matching `LOWER(material_type) LIKE LOWER('%' || t || '%')`
(data.js lines 170-174): the table entry contains the input as a
case-insensitive substring. -/
def substringCandidates (t : String) : List EmissionFactor :=
  factorTable.filter (fun f => strContains f.material_type.toLower t.toLower)

/-- `ORDER BY material_type LIMIT 1`: the candidate with the smallest
material_type string (earliest row wins ties). -/
def minByMaterialType : List EmissionFactor → Option EmissionFactor
  | [] => none
  | f :: tl =>
    match minByMaterialType tl with
    | none => some f
    | some g => if f.material_type ≤ g.material_type then some f else some g

/-- The substring stage of data.js `enrichMaterialData`. -/
def enrichSubstringLookup (t : String) : Option EmissionFactor :=
  minByMaterialType (substringCandidates t)

/-- Emission-factor lookup of data.js `enrichMaterialData` (lines 163-188):
exact case-insensitive match, then substring match ordered by
material_type, then defaults with the `estimated` flag (second component). -/
def enrichLookup (t : String) : EmissionFactor × Bool :=
  match findExact t with
  | some f => (f, false)
  | none =>
    match enrichSubstringLookup t with
    | some f => (f, false)
    | none => (dataDefaultFactor, true)

/-- One input material of the calculate route (`req.body.materials[i]`).
Absent fields are `none`. -/
structure MaterialInput where
  material_type : String
  quantity : Option ℚ := none
  unit : Option String := none
  energy_consumption : Option ℚ := none
  transport_distance : Option ℚ := none
deriving DecidableEq

/-- One entry pushed onto `materialBreakdown` (lca.js lines 56-65). -/
structure BreakdownEntry where
  material_type : String
  category : String
  quantity : ℚ
  unit : String
  co2_impact : ℚ
  energy_impact : ℚ
  transport_impact : ℚ
  total_impact : ℚ
deriving DecidableEq

/-- Per-category accumulator of `categoryBreakdown` (lca.js lines 68-79). -/
structure CatData where
  co2 : ℚ
  energy : ℚ
  materials : ℚ
  count : ℕ
deriving DecidableEq

/-- State threaded through the material loop of the calculate route.
`catBreakdown` is an association list in JS object insertion order. -/
structure CalcState where
  totalCO2 : ℚ
  totalEnergy : ℚ
  totalMaterials : ℚ
  breakdown : List BreakdownEntry
  catBreakdown : List (String × CatData)
  warnings : List String
deriving DecidableEq

/-- Update `categoryBreakdown[category]` (lca.js lines 68-79): create the
entry on first sight (appended, preserving JS object key order), then add
the impacts and bump the count. -/
def bumpCat (l : List (String × CatData)) (cat : String) (c e q : ℚ) :
    List (String × CatData) :=
  match l with
  | [] => [(cat, { co2 := c, energy := e, materials := q, count := 1 })]
  | (k, d) :: tl =>
    if k == cat then
      (k, { co2 := d.co2 + c, energy := d.energy + e,
            materials := d.materials + q, count := d.count + 1 }) :: tl
    else
      (k, d) :: bumpCat tl cat c e q

/-- One iteration of the `for (const material of materials)` loop
(lca.js lines 23-80). -/
def processMaterial (st : CalcState) (material : MaterialInput) : CalcState :=
  let quantity := jsNum material.quantity
  let energyConsumption := jsNum material.energy_consumption
  let transportDistance := jsNum material.transport_distance
  let (emissionFactor, warning) := lcaLookup material.material_type
  let co2Impact := quantity * emissionFactor.co2_factor
  let energyImpact := quantity * emissionFactor.energy_factor + energyConsumption
  let transportImpact := transportDistance * emissionFactor.transport_factor * quantity
  let entry : BreakdownEntry :=
    { material_type := material.material_type
      category := emissionFactor.category
      quantity := quantity
      unit := jsStr material.unit "kg"
      co2_impact := co2Impact
      energy_impact := energyImpact
      transport_impact := transportImpact
      total_impact := co2Impact + energyImpact + transportImpact }
  { totalCO2 := st.totalCO2 + (co2Impact + transportImpact * (1/10))
    totalEnergy := st.totalEnergy + energyImpact
    totalMaterials := st.totalMaterials + quantity
    breakdown := st.breakdown ++ [entry]
    catBreakdown := bumpCat st.catBreakdown emissionFactor.category co2Impact energyImpact quantity
    warnings := st.warnings ++ (match warning with | some w => [w] | none => []) }

/-- The empty loop state (lca.js lines 16-21). -/
def initState : CalcState :=
  { totalCO2 := 0, totalEnergy := 0, totalMaterials := 0,
    breakdown := [], catBreakdown := [], warnings := [] }

/-- The whole material loop of the calculate route. -/
def processAll (materials : List MaterialInput) : CalcState :=
  materials.foldl processMaterial initState

/-- Stable insertion step for a descending sort by `total_impact`;
an element is placed before the first element whose impact is not
greater, so equal impacts keep their original relative order. -/
def insertDescByImpact (e : BreakdownEntry) :
    List BreakdownEntry → List BreakdownEntry
  | [] => [e]
  | f :: tl =>
    if e.total_impact < f.total_impact then f :: insertDescByImpact e tl
    else e :: f :: tl

/-- `materialBreakdown.sort((a, b) => b.total_impact - a.total_impact)`
(lca.js line 212): stable descending sort by `total_impact`
(`Array.prototype.sort` is stable and sorts in place). -/
def sortByImpactDesc (l : List BreakdownEntry) : List BreakdownEntry :=
  l.foldr insertDescByImpact []

/-- Stable insertion step for the descending category sort by CO2. -/
def insertDescByCo2 (e : String × CatData) :
    List (String × CatData) → List (String × CatData)
  | [] => [e]
  | f :: tl =>
    if e.2.co2 < f.2.co2 then f :: insertDescByCo2 e tl
    else e :: f :: tl

/-- `Object.entries(categoryBreakdown).sort((a, b) => b[1].co2 - a[1].co2)`
(lca.js line 227): stable descending sort of the (insertion-ordered)
category entries by their CO2 total. -/
def sortDescByCo2 (l : List (String × CatData)) : List (String × CatData) :=
  l.foldr insertDescByCo2 []

/-- One generated recommendation (lca.js lines 217-273). -/
structure Recommendation where
  type : String
  priority : String
  title : String
  description : String
  action : String
deriving DecidableEq

/-- The `high_impact` recommendation (lca.js lines 217-223). -/
def highImpactRec (h : BreakdownEntry) : Recommendation :=
  let t := h.material_type
  let n := jsRound h.total_impact
  { type := "high_impact", priority := "high",
    title := s!"Optimize {t} usage",
    description := s!"{t} contributes {n} units to total impact. Consider alternatives or reduce quantity.",
    action := "material_substitution" }

/-- The `category_optimization` recommendation (lca.js lines 232-238). -/
def categoryRec (topCategory : String) (topCategoryData : CatData) : Recommendation :=
  let n := jsRound topCategoryData.co2
  { type := "category_optimization", priority := "medium",
    title := s!"Focus on {topCategory} materials",
    description := s!"{topCategory} category accounts for {n} kg CO2. This category has the highest environmental impact.",
    action := "category_review" }

/-- The `energy_efficiency` recommendation (lca.js lines 245-251). -/
def energyRec (totalEnergy : ℚ) : Recommendation :=
  let n := jsRound totalEnergy
  { type := "energy_efficiency", priority := "medium",
    title := "Improve energy efficiency",
    description := s!"Total energy consumption is {n} MJ. Consider renewable energy sources or more efficient processes.",
    action := "energy_optimization" }

/-- The `transport_optimization` recommendation (lca.js lines 257-263). -/
def transportRec (count : ℕ) : Recommendation :=
  { type := "transport_optimization", priority := "low",
    title := "Optimize transportation",
    description := s!"{count} materials have high transport impact. Consider local sourcing or more efficient logistics.",
    action := "transport_optimization" }

/-- The unconditional `general` recommendation (lca.js lines 267-273). -/
def generalRec : Recommendation :=
  { type := "general", priority := "low",
    title := "Consider circular economy principles",
    description := "Explore recycling, reuse, and sustainable material alternatives to reduce overall environmental impact.",
    action := "circular_economy" }

/-- `generateRecommendations` (lca.js lines 208-276). The first statement
sorts `materialBreakdown` in place; every later use of the array in the
source therefore reads the sorted array, which is mirrored here by using
`sortedMaterials` throughout. -/
def generateRecommendations (materialBreakdown : List BreakdownEntry)
    (categoryBreakdown : List (String × CatData)) : List Recommendation :=
  let sortedMaterials := sortByImpactDesc materialBreakdown
  let recs1 : List Recommendation :=
    match sortedMaterials.head? with
    | some highestImpact =>
      if 100 < highestImpact.total_impact then [highImpactRec highestImpact] else []
    | none => []
  let sortedCategories := sortDescByCo2 categoryBreakdown
  let recs2 : List Recommendation :=
    match sortedCategories.head? with
    | some (topCategory, topCategoryData) =>
      if 50 < topCategoryData.co2 then [categoryRec topCategory topCategoryData] else []
    | none => []
  let totalEnergy := (sortedMaterials.map (fun m => m.energy_impact)).sum
  let recs3 : List Recommendation :=
    if 1000 < totalEnergy then [energyRec totalEnergy] else []
  let highTransportMaterials := sortedMaterials.filter (fun m => 10 < m.transport_impact)
  let recs4 : List Recommendation :=
    if 0 < highTransportMaterials.length then [transportRec highTransportMaterials.length] else []
  recs1 ++ recs2 ++ recs3 ++ recs4 ++ [generalRec]

/-- Reported scores object (lca.js lines 287-293); the four numeric
fields are `Math.round`ed, hence integers. -/
structure Scores where
  overall : ℤ
  co2 : ℤ
  energy : ℤ
  materials : ℤ
  grade : String
deriving DecidableEq

/-- `Math.max(0, 100 - co2 / 10)` (lca.js line 281). -/
def co2ScoreRaw (co2 : ℚ) : ℚ := max 0 (100 - co2 / 10)

/-- `Math.max(0, 100 - energy / 100)` (lca.js line 282). -/
def energyScoreRaw (energy : ℚ) : ℚ := max 0 (100 - energy / 100)

/-- `Math.max(0, 100 - materials / 50)` (lca.js line 283). -/
def materialScoreRaw (materials : ℚ) : ℚ := max 0 (100 - materials / 50)

/-- The pre-rounding overall score (lca.js line 285). -/
def overallScoreRaw (co2 energy materials : ℚ) : ℚ :=
  (co2ScoreRaw co2 + energyScoreRaw energy + materialScoreRaw materials) / 3

/-- `getEnvironmentalGrade` (lca.js lines 296-303). -/
def getEnvironmentalGrade (score : ℚ) : String :=
  if 90 ≤ score then "A+"
  else if 80 ≤ score then "A"
  else if 70 ≤ score then "B"
  else if 60 ≤ score then "C"
  else if 50 ≤ score then "D"
  else "F"

/-- `calculateEnvironmentalScores` (lca.js lines 279-294): the grade is
computed from the pre-rounding `overallScore`. -/
def calculateEnvironmentalScores (co2 energy materials : ℚ) : Scores :=
  { overall := jsRound (overallScoreRaw co2 energy materials)
    co2 := jsRound (co2ScoreRaw co2)
    energy := jsRound (energyScoreRaw energy)
    materials := jsRound (materialScoreRaw materials)
    grade := getEnvironmentalGrade (overallScoreRaw co2 energy materials) }

/-- One row inserted into `assessment_materials` (lca.js lines 101-115). -/
structure PersistedRow where
  assessment_id : ℕ
  material_type : String
  quantity : ℚ
  unit : String
  energy_consumption : ℚ
  transport_distance : ℚ
  co2_impact : ℚ
  energy_impact : ℚ
  category : String
deriving DecidableEq

/-- The row built for one breakdown entry: the source passes literal `0`
for `energy_consumption` and `transport_distance` (lca.js lines 110-111). -/
def persistRow (id : ℕ) (e : BreakdownEntry) : PersistedRow :=
  { assessment_id := id
    material_type := e.material_type
    quantity := e.quantity
    unit := e.unit
    energy_consumption := 0
    transport_distance := 0
    co2_impact := e.co2_impact
    energy_impact := e.energy_impact
    category := e.category }

/-- Outcome model for the two kinds of `database.run` calls inside the
persistence `try` block: `assessmentInsert` is the id returned by the
`lca_assessments` INSERT (`none` models a throw), and `materialInsertOk i`
says whether the INSERT for the i-th material row succeeds. -/
structure DbBehavior where
  assessmentInsert : Option ℕ
  materialInsertOk : ℕ → Bool

/-- The material-row loop (lca.js lines 100-116): rows are written in
order until an INSERT throws; the second component reports success. -/
def persistRows (db : DbBehavior) (id : ℕ) :
    List BreakdownEntry → ℕ → List PersistedRow × Bool
  | [], _ => ([], true)
  | e :: tl, i =>
    if db.materialInsertOk i then
      let rest := persistRows db id tl (i + 1)
      (persistRow id e :: rest.1, rest.2)
    else ([], false)

/-- The warning pushed when the persistence `try` block throws
(lca.js line 119). -/
def saveFailWarning : String := "Assessment calculated but not saved to database."

/-- One entry of the response's `category_breakdown` (lca.js lines 133-137). -/
structure CategoryEntry where
  category : String
  co2 : ℚ
  energy : ℚ
  materials : ℚ
  count : ℕ
  percentage : ℚ
deriving DecidableEq

/-- The spread plus `percentage` computed for one category
(lca.js line 136). In ℚ a division by zero yields 0; the JS source
yields NaN when `totalCO2` is 0, and no claim below touches that case. -/
def mkCategoryEntry (p : String × CatData) (totalCO2 : ℚ) : CategoryEntry :=
  { category := p.1
    co2 := p.2.co2
    energy := p.2.energy
    materials := p.2.materials
    count := p.2.count
    percentage := round2 (p.2.co2 / totalCO2 * 100) }

/-- The JSON body of the calculate route's 200 response
(lca.js lines 123-140). -/
structure CalcResponse where
  assessment_id : Option ℕ
  total_co2_kg : ℚ
  total_energy_mj : ℚ
  total_materials_kg : ℚ
  material_count : ℕ
  scores : Scores
  material_breakdown : List BreakdownEntry
  category_breakdown : List CategoryEntry
  recommendations : List Recommendation
  warnings : List String
deriving DecidableEq

/-- The response together with the rows written to `assessment_materials`
(the persistence side effect). -/
structure CalcOutcome where
  response : CalcResponse
  persisted : List PersistedRow

/-- `POST /api/lca/calculate` (lca.js lines 7-146) for a non-empty
materials array. `generateRecommendations` sorts `materialBreakdown` in
place (line 212), so the persistence loop and the response both see the
sorted array; this aliasing is modelled by rebinding `materialBreakdown`
to `sortByImpactDesc st.breakdown` after the call. The `description`
field only flows into the assessment row and is omitted. -/
def calculate (materials : List MaterialInput) (assessment_name : Option String)
    (db : DbBehavior) : CalcOutcome :=
  let st := processAll materials
  let recommendations := generateRecommendations st.breakdown st.catBreakdown
  let materialBreakdown := sortByImpactDesc st.breakdown
  let scores := calculateEnvironmentalScores st.totalCO2 st.totalEnergy st.totalMaterials
  let persisted : Option ℕ × List String × List PersistedRow :=
    match assessment_name with
    | none => (none, st.warnings, [])
    | some _ =>
      match db.assessmentInsert with
      | none => (none, st.warnings ++ [saveFailWarning], [])
      | some id =>
        let r := persistRows db id materialBreakdown 0
        if r.2 then (some id, st.warnings, r.1)
        else (some id, st.warnings ++ [saveFailWarning], r.1)
  { response :=
      { assessment_id := persisted.1
        total_co2_kg := round2 st.totalCO2
        total_energy_mj := round2 st.totalEnergy
        total_materials_kg := round2 st.totalMaterials
        material_count := materials.length
        scores := scores
        material_breakdown := materialBreakdown
        category_breakdown := st.catBreakdown.map (fun p => mkCategoryEntry p st.totalCO2)
        recommendations := recommendations
        warnings := persisted.2.1 }
    persisted := persisted.2.2 }

/-- One raw material given to the AI fallback path (ai.js). -/
structure AIMaterial where
  material_type : String
  quantity : Option ℚ := none
  energy_consumption : Option ℚ := none
  transport_distance : Option ℚ := none
deriving DecidableEq

/-- The processed material produced by `basicDataProcessing` (ai.js
lines 134-177); advisory fields the source leaves absent are `none`. -/
structure ProcessedMaterial where
  material_type : String
  quantity : Option ℚ
  energy_consumption : Option ℚ
  transport_distance : Option ℚ
  ai_imputed : Bool
  imputation_note : Option String
  category : String
  ai_categorized : Bool
  outlier_flag : Bool
  outlier_reason : Option String
deriving DecidableEq

/-- The keyword-to-energy table of `estimateEnergyConsumption`
(ai.js lines 181-189), in object-literal order. -/
def energyEstimates : List (String × ℚ) :=
  [ ("steel", 24), ("aluminum", 154), ("plastic", 76), ("glass", 15),
    ("concrete", 1), ("wood", 5/2), ("paper", 20) ]

/-- `estimateEnergyConsumption` (ai.js lines 180-199): the first table
key contained in the lowercased material type wins; default 10. -/
def estimateEnergyConsumption (materialType : String) : ℚ :=
  let lowerMaterial := materialType.toLower
  match energyEstimates.find? (fun p => strContains lowerMaterial p.1) with
  | some p => p.2
  | none => 10

/-- `categorizeMaterial` (ai.js lines 202-238). -/
def categorizeMaterial (materialType : String) : String :=
  let m := materialType.toLower
  if strContains m "steel" || strContains m "aluminum" ||
     strContains m "copper" || strContains m "iron" then "Metals"
  else if strContains m "plastic" || strContains m "polymer" ||
     strContains m "pet" || strContains m "hdpe" then "Plastics"
  else if strContains m "concrete" || strContains m "cement" ||
     strContains m "brick" || strContains m "stone" then "Construction"
  else if strContains m "glass" then "Glass"
  else if strContains m "wood" || strContains m "timber" then "Construction"
  else if strContains m "paper" || strContains m "cardboard" then "Paper"
  else if strContains m "cotton" || strContains m "polyester" ||
     strContains m "fabric" then "Textiles"
  else "Unknown"

/-- One iteration of `basicDataProcessing` (ai.js lines 135-176).
`!material.quantity || material.quantity === 0` is the JS falsy test
(absent or 0); negative values are truthy and pass through. -/
def basicProcessOne (material : AIMaterial) : ProcessedMaterial :=
  let missingQuantity := jsFalsy material.quantity
  let missingEnergy := jsFalsy material.energy_consumption
  let missingTransport := jsFalsy material.transport_distance
  let quantity := if missingQuantity then some (1 : ℚ) else material.quantity
  let note1 : Option String :=
    if missingQuantity then some "Quantity imputed with default value" else none
  let energy :=
    if missingEnergy then some (estimateEnergyConsumption material.material_type)
    else material.energy_consumption
  let note2 : Option String :=
    if missingEnergy then some ((note1.getD "") ++ " Energy consumption estimated")
    else note1
  let transport :=
    if missingTransport then some (100 : ℚ) else material.transport_distance
  let note3 : Option String :=
    if missingTransport then some ((note2.getD "") ++ " Transport distance estimated")
    else note2
  let category := categorizeMaterial material.material_type
  let outlier :=
    match material.quantity with
    | some q => decide (10000 < q)
    | none => false
  { material_type := material.material_type
    quantity := quantity
    energy_consumption := energy
    transport_distance := transport
    ai_imputed := missingQuantity || missingEnergy || missingTransport
    imputation_note := note3
    category := category
    ai_categorized := category == "Unknown"
    outlier_flag := outlier
    outlier_reason := if outlier then some "Unusually high quantity detected" else none }

/-- `basicDataProcessing` (ai.js line 134): map over the materials. -/
def basicDataProcessing (materials : List AIMaterial) : List ProcessedMaterial :=
  materials.map basicProcessOne

/-- A database behavior with no assessment insert attempted or needed
(used for unnamed calculations, where `db` is never consulted). -/
def dbNoop : DbBehavior := ⟨none, fun _ => true⟩

/-- A database behavior where every insert succeeds and the assessment
row receives id 1. -/
def dbOk : DbBehavior := ⟨some 1, fun _ => true⟩

/-- A database behavior where the assessment insert succeeds with id 7
but every material-row insert throws. -/
def dbFailMat : DbBehavior := ⟨some 7, fun _ => false⟩

/-! Helper lemmas shared by several claims. -/

theorem jsRound_nonneg {q : ℚ} (h : 0 ≤ q) : 0 ≤ jsRound q := by
  unfold jsRound
  exact Int.floor_nonneg.mpr (by linarith)

theorem jsRound_le_100 {q : ℚ} (h : q ≤ 100) : jsRound q ≤ 100 := by
  unfold jsRound
  have h1 : (⌊q + 1/2⌋ : ℚ) ≤ q + 1/2 := Int.floor_le _
  have h2 : (⌊q + 1/2⌋ : ℚ) < 101 := by linarith
  exact_mod_cast Int.lt_add_one_iff.mp (by exact_mod_cast h2)

/-- Adding to a category bumps the CO2 column sum by exactly that CO2. -/
theorem bumpCat_co2_sum (l : List (String × CatData)) (cat : String) (c e q : ℚ) :
    ((bumpCat l cat c e q).map (fun p => p.2.co2)).sum =
      (l.map (fun p => p.2.co2)).sum + c := by
  induction l with
  | nil => simp [bumpCat]
  | cons hd tl ih =>
    rw [bumpCat]
    split
    · simp; ring
    · simp [ih]; ring

/-- The invariant maintained by the material loop of the calculate route:
the running totals are the sums over the breakdown entries, and the
category CO2 column sums to the per-material CO2 impacts. -/
def StateInv (st : CalcState) : Prop :=
  st.totalCO2 = (st.breakdown.map (fun e => e.co2_impact + e.transport_impact * (1/10))).sum
  ∧ st.totalEnergy = (st.breakdown.map (fun e => e.energy_impact)).sum
  ∧ st.totalMaterials = (st.breakdown.map (fun e => e.quantity)).sum
  ∧ (st.catBreakdown.map (fun p => p.2.co2)).sum = (st.breakdown.map (fun e => e.co2_impact)).sum

theorem processMaterial_inv {st : CalcState} (h : StateInv st) (m : MaterialInput) :
    StateInv (processMaterial st m) := by
  obtain ⟨h1, h2, h3, h4⟩ := h
  unfold StateInv processMaterial
  refine ⟨?_, ?_, ?_, ?_⟩ <;>
    simp [h1, h2, h3, h4, bumpCat_co2_sum]

theorem foldl_processMaterial_inv (ms : List MaterialInput) :
    ∀ st : CalcState, StateInv st → StateInv (ms.foldl processMaterial st) := by
  induction ms with
  | nil => intro st h; exact h
  | cons m tl ih => intro st h; exact ih _ (processMaterial_inv h m)

theorem processAll_inv (ms : List MaterialInput) : StateInv (processAll ms) := by
  refine foldl_processMaterial_inv ms initState ?_
  unfold StateInv initState
  simp

/-- `minByMaterialType` never returns `none` on a non-empty list. -/
theorem minByMT_cons_ne_none (hd : EmissionFactor) (tl : List EmissionFactor) :
    minByMaterialType (hd :: tl) ≠ none := by
  rw [minByMaterialType]
  cases minByMaterialType tl with
  | none => simp
  | some g =>
    dsimp only
    by_cases hle : hd.material_type ≤ g.material_type
    · rw [if_pos hle]; simp
    · rw [if_neg hle]; simp

/-- A minimum taken by `minByMaterialType` is a member of the list. -/
theorem minByMT_mem : ∀ {l : List EmissionFactor} {f : EmissionFactor},
    minByMaterialType l = some f → f ∈ l := by
  intro l
  induction l with
  | nil => intro f h; simp [minByMaterialType] at h
  | cons hd tl ih =>
    intro f h
    rw [minByMaterialType] at h
    cases htl : minByMaterialType tl with
    | none =>
      rw [htl] at h
      dsimp only at h
      exact (Option.some_inj.mp h) ▸ List.mem_cons_self hd tl
    | some g =>
      rw [htl] at h
      dsimp only at h
      by_cases hle : hd.material_type ≤ g.material_type
      · rw [if_pos hle] at h
        exact (Option.some_inj.mp h) ▸ List.mem_cons_self hd tl
      · rw [if_neg hle] at h
        exact List.mem_cons_of_mem hd ((Option.some_inj.mp h) ▸ ih htl)

/-- A minimum taken by `minByMaterialType` has the smallest
`material_type` among all members. -/
theorem minByMT_le : ∀ {l : List EmissionFactor} {f : EmissionFactor},
    minByMaterialType l = some f →
    ∀ g ∈ l, f.material_type ≤ g.material_type := by
  intro l
  induction l with
  | nil => intro f h; simp [minByMaterialType] at h
  | cons hd tl ih =>
    intro f h g hg
    rw [minByMaterialType] at h
    cases htl : minByMaterialType tl with
    | none =>
      rw [htl] at h
      dsimp only at h
      have hf : f = hd := (Option.some_inj.mp h).symm
      cases tl with
      | nil =>
        rcases List.mem_singleton.mp hg with rfl
        exact hf ▸ le_refl _
      | cons a b => exact absurd htl (minByMT_cons_ne_none a b)
    | some m =>
      rw [htl] at h
      dsimp only at h
      by_cases hle : hd.material_type ≤ m.material_type
      · rw [if_pos hle] at h
        injection h with h'
        subst h'
        rcases List.mem_cons.mp hg with heq | hgtl
        · rw [heq]
        · exact le_trans hle (ih htl g hgtl)
      · rw [if_neg hle] at h
        injection h with h'
        subst h'
        rcases List.mem_cons.mp hg with heq | hgtl
        · rw [heq]; exact le_of_not_le hle
        · exact ih htl g hgtl

/-! Claim theorems. -/

/-- C1: the claim says `material_breakdown` preserves input order, and the
spec calls `generateRecommendations` a pure function; but the source sorts
`materialBreakdown` in place (lca.js line 212, an `Array.prototype.sort`
side effect) before the response is built, so the response lists the two
unknown materials MatA (total impact 11) and MatB (total impact 22) in
impact order [MatB, MatA], not input order [MatA, MatB]. The length is
preserved. -/
theorem c1_breakdown_reordered :
    ((calculate [ { material_type := "MatA", quantity := some 1 },
                  { material_type := "MatB", quantity := some 2 } ] none dbNoop).response.material_breakdown.map
        (fun e => e.material_type)) = ["MatB", "MatA"]
    ∧ ((calculate [ { material_type := "MatA", quantity := some 1 },
                  { material_type := "MatB", quantity := some 2 } ] none dbNoop).response.material_breakdown.length) = 2 := by
  constructor
  · with_unfolding_all decide
  · with_unfolding_all decide

/-- C2 counterexample: the claimed three-stage lookup is false at two
concrete inputs. (1) In the calculate route, the input "Stee" is a
case-insensitive substring of the table entry "Steel" (so stage (b) of
the claim would match), yet the route falls straight to the default
factors (category "Unknown") and emits the unknown-material warning.
(2) In `enrichMaterialData`, the input "Steel Alloy" contains the table
entry "Steel" (the claim's "is contained by" direction), yet the lookup
returns the defaults with the estimated flag, because the SQL pattern
only matches when the table entry contains the input. -/
theorem c2_lookup_counterexample :
    ((processAll [ { material_type := "Stee", quantity := some 10 } ]).breakdown.map
        (fun e => e.category) = ["Unknown"]
      ∧ (processAll [ { material_type := "Stee", quantity := some 10 } ]).warnings
          = [unknownWarning "Stee"]
      ∧ strContains "Steel".toLower "Stee".toLower = true)
    ∧ (enrichLookup "Steel Alloy" = (dataDefaultFactor, true)
      ∧ strContains "Steel Alloy".toLower "Steel".toLower = true) := by
  refine ⟨⟨?_, ?_, ?_⟩, ?_, ?_⟩ <;> with_unfolding_all decide

/-- C2 amended: the calculate route's lookup has two stages — exact
case-insensitive match against the factor table, else the hardcoded
defaults \x7bco2 1.0, energy 10.0, transport 0.05, category Unknown\x7d with a
warning naming the material's type. The three-stage lookup exists only in
`enrichMaterialData`, whose middle stage matches table entries that
contain the input (one direction only), taking the entry with the
lexicographically first material_type, and whose final stage yields the
same defaults with an estimated flag. -/
theorem c2_lookup_stages (t : String) :
    (∀ f, findExact t = some f →
        lcaLookup t = (f, none)
        ∧ enrichLookup t = (f, false)
        ∧ f ∈ factorTable
        ∧ lowerEq f.material_type t = true)
    ∧ (findExact t = none →
        lcaLookup t = (lcaDefaultFactor, some (unknownWarning t)))
    ∧ (findExact t = none → ∀ f, enrichSubstringLookup t = some f →
        enrichLookup t = (f, false)
        ∧ f ∈ factorTable
        ∧ strContains f.material_type.toLower t.toLower = true
        ∧ ∀ g ∈ factorTable, strContains g.material_type.toLower t.toLower = true →
            f.material_type ≤ g.material_type)
    ∧ (findExact t = none → enrichSubstringLookup t = none →
        enrichLookup t = (dataDefaultFactor, true)) := by
  refine ⟨?_, ?_, ?_, ?_⟩
  · intro f h
    have h' : factorTable.find? (fun g => lowerEq g.material_type t) = some f := h
    refine ⟨?_, ?_, ?_, ?_⟩
    · unfold lcaLookup; rw [h]
    · unfold enrichLookup; rw [h]
    · exact List.mem_of_find?_eq_some h'
    · simpa using List.find?_some h'
  · intro h
    unfold lcaLookup; rw [h]
  · intro h f hf
    have hmem : f ∈ substringCandidates t := minByMT_mem hf
    have hmem' : f ∈ factorTable.filter
        (fun g => strContains g.material_type.toLower t.toLower) := hmem
    refine ⟨?_, ?_, ?_, ?_⟩
    · unfold enrichLookup; rw [h]; dsimp only; rw [hf]
    · exact List.mem_of_mem_filter hmem'
    · simpa using List.of_mem_filter hmem'
    · intro g hg hgc
      refine minByMT_le hf g ?_
      show g ∈ factorTable.filter (fun g => strContains g.material_type.toLower t.toLower)
      exact List.mem_filter.mpr ⟨hg, hgc⟩
  · intro h hs
    unfold enrichLookup; rw [h]; dsimp only; rw [hs]

/-- C2 witness: instantiating the amended-lookup theorem at the concrete
input "Stee" (no exact match) shows the calculate route returns the
default factors with the unknown-material warning. -/
theorem c2_lookup_stages_witness :
    lcaLookup "Stee" = (lcaDefaultFactor, some (unknownWarning "Stee")) :=
  (c2_lookup_stages "Stee").2.1 (by with_unfolding_all decide)

/-- C3: the aggregate totals of the calculate route satisfy
total_co2 = Σ (co2_impact + 0.1 * transport_impact),
total_energy = Σ energy_impact and total_materials = Σ quantity over the
breakdown entries; and Scenario A — a single Steel input of quantity 100
with no extra energy or transport — yields co2_impact 185,
energy_impact 2400, transport_impact 0, category "Metals" and a reported
total_co2_kg of 185. -/
theorem c3_totals_and_scenario_a :
    (∀ materials : List MaterialInput,
        (processAll materials).totalCO2 =
          ((processAll materials).breakdown.map
            (fun e => e.co2_impact + e.transport_impact * (1/10))).sum
        ∧ (processAll materials).totalEnergy =
          ((processAll materials).breakdown.map (fun e => e.energy_impact)).sum
        ∧ (processAll materials).totalMaterials =
          ((processAll materials).breakdown.map (fun e => e.quantity)).sum)
    ∧ ((calculate [ { material_type := "Steel", quantity := some 100, unit := some "kg",
                      energy_consumption := some 0, transport_distance := some 0 } ]
          none dbNoop).response.material_breakdown.map
        (fun e => (e.co2_impact, e.energy_impact, e.transport_impact, e.category)))
        = [(185, 2400, 0, "Metals")]
    ∧ (calculate [ { material_type := "Steel", quantity := some 100, unit := some "kg",
                     energy_consumption := some 0, transport_distance := some 0 } ]
          none dbNoop).response.total_co2_kg = 185 := by
  refine ⟨?_, ?_, ?_⟩
  · intro materials
    have h := processAll_inv materials
    exact ⟨h.1, h.2.1, h.2.2.1⟩
  · with_unfolding_all decide
  · with_unfolding_all decide

/-- C4 counterexample: the claim bounds every reported score by 100 for
every input, but the seeded table gives Wood a negative CO2 factor
(-0.9); a single Wood input of quantity 1000 makes totalCO2 = -900, so
the reported CO2 score is 190 and the overall score is 115, both above
100 (and the grade, computed from overall 115, is "A+"). -/
theorem c4_score_above_100 :
    (calculate [ { material_type := "Wood", quantity := some 1000 } ] none dbNoop).response.scores
      = { overall := 115, co2 := 190, energy := 75, materials := 80, grade := "A+" } := by
  with_unfolding_all decide

/-- C4 amended: each of the four reported scores is an integer (they are
values of `Math.round`, hence the ℤ-valued fields) and is at least 0 for
all totals, however large; each is at most 100 whenever the
corresponding total is nonnegative (all three totals nonnegative for the
overall score). Scores may exceed 100 when a total is negative, which is
reachable through Wood's negative CO2 factor. -/
theorem c4_scores_bounds (c e m : ℚ) :
    (0 ≤ (calculateEnvironmentalScores c e m).co2
      ∧ 0 ≤ (calculateEnvironmentalScores c e m).energy
      ∧ 0 ≤ (calculateEnvironmentalScores c e m).materials
      ∧ 0 ≤ (calculateEnvironmentalScores c e m).overall)
    ∧ (0 ≤ c → (calculateEnvironmentalScores c e m).co2 ≤ 100)
    ∧ (0 ≤ e → (calculateEnvironmentalScores c e m).energy ≤ 100)
    ∧ (0 ≤ m → (calculateEnvironmentalScores c e m).materials ≤ 100)
    ∧ (0 ≤ c → 0 ≤ e → 0 ≤ m → (calculateEnvironmentalScores c e m).overall ≤ 100) := by
  have hraw_nn : 0 ≤ co2ScoreRaw c ∧ 0 ≤ energyScoreRaw e ∧ 0 ≤ materialScoreRaw m :=
    ⟨le_max_left 0 _, le_max_left 0 _, le_max_left 0 _⟩
  have hco : 0 ≤ c → co2ScoreRaw c ≤ 100 := by
    intro h
    unfold co2ScoreRaw
    have : 0 ≤ c / 10 := by positivity
    exact max_le (by norm_num) (by linarith)
  have hen : 0 ≤ e → energyScoreRaw e ≤ 100 := by
    intro h
    unfold energyScoreRaw
    have : 0 ≤ e / 100 := by positivity
    exact max_le (by norm_num) (by linarith)
  have hma : 0 ≤ m → materialScoreRaw m ≤ 100 := by
    intro h
    unfold materialScoreRaw
    have : 0 ≤ m / 50 := by positivity
    exact max_le (by norm_num) (by linarith)
  obtain ⟨h1, h2, h3⟩ := hraw_nn
  have hov : 0 ≤ overallScoreRaw c e m := by
    unfold overallScoreRaw; positivity
  refine ⟨⟨?_, ?_, ?_, ?_⟩, ?_, ?_, ?_, ?_⟩
  · exact jsRound_nonneg h1
  · exact jsRound_nonneg h2
  · exact jsRound_nonneg h3
  · exact jsRound_nonneg hov
  · intro h; exact jsRound_le_100 (hco h)
  · intro h; exact jsRound_le_100 (hen h)
  · intro h; exact jsRound_le_100 (hma h)
  · intro hc he hm
    refine jsRound_le_100 ?_
    unfold overallScoreRaw
    have := hco hc
    have := hen he
    have := hma hm
    linarith

/-- C4 witness: the amended bounds at the concrete totals (5, 7, 11). -/
theorem c4_scores_bounds_witness :
    0 ≤ (calculateEnvironmentalScores 5 7 11).co2
    ∧ (calculateEnvironmentalScores 5 7 11).co2 ≤ 100
    ∧ (calculateEnvironmentalScores 5 7 11).overall ≤ 100 :=
  ⟨(c4_scores_bounds 5 7 11).1.1,
   (c4_scores_bounds 5 7 11).2.1 (by norm_num),
   (c4_scores_bounds 5 7 11).2.2.2.2 (by norm_num) (by norm_num) (by norm_num)⟩

/-- C5: the grade is computed from the pre-rounding overall score with
inclusive lower band bounds (≥90 A+, ≥80 A, ≥70 B, ≥60 C, ≥50 D, else F);
zero totals give overall 100 and grade "A+". The last two conjuncts show
the pre-rounding value really is the one used: totals (7.5, 1000, 1000)
give raw overall 89.75, reported (rounded) overall 90, yet grade "A". -/
theorem c5_grade_bands :
    (∀ s : ℚ,
        (90 ≤ s → getEnvironmentalGrade s = "A+")
      ∧ (80 ≤ s → s < 90 → getEnvironmentalGrade s = "A")
      ∧ (70 ≤ s → s < 80 → getEnvironmentalGrade s = "B")
      ∧ (60 ≤ s → s < 70 → getEnvironmentalGrade s = "C")
      ∧ (50 ≤ s → s < 60 → getEnvironmentalGrade s = "D")
      ∧ (s < 50 → getEnvironmentalGrade s = "F"))
    ∧ (∀ c e m : ℚ, (calculateEnvironmentalScores c e m).grade =
        getEnvironmentalGrade (overallScoreRaw c e m))
    ∧ calculateEnvironmentalScores 0 0 0 =
        { overall := 100, co2 := 100, energy := 100, materials := 100, grade := "A+" }
    ∧ overallScoreRaw (15/2) 1000 1000 = 359/4
    ∧ (calculateEnvironmentalScores (15/2) 1000 1000).overall = 90
    ∧ (calculateEnvironmentalScores (15/2) 1000 1000).grade = "A" := by
  refine ⟨?_, ?_, ?_, ?_, ?_, ?_⟩
  · intro s
    refine ⟨?_, ?_, ?_, ?_, ?_, ?_⟩ <;>
      (intros
       unfold getEnvironmentalGrade
       split_ifs <;> first | rfl | linarith)
  · intro c e m; rfl
  · with_unfolding_all decide
  · with_unfolding_all decide
  · with_unfolding_all decide
  · with_unfolding_all decide

/-- C5 witness: the band implications at the concrete pre-rounding
scores 95 and 89.75. -/
theorem c5_grade_bands_witness :
    getEnvironmentalGrade 95 = "A+" ∧ getEnvironmentalGrade (359/4) = "A" :=
  ⟨(c5_grade_bands.1 95).1 (by norm_num),
   ((c5_grade_bands.1 (359/4)).2.1 (by norm_num) (by norm_num))⟩

/-- C6 counterexample: the claim says the returned assessment_id is null
whenever persistence fails, but when the assessment-row INSERT succeeds
(id 7) and a material-row INSERT then throws, the route's `assessmentId`
was already assigned (lca.js line 97) and the catch block does not reset
it: the response carries assessment_id 7 together with the
not-saved warning. -/
theorem c6_partial_persist_id_not_null :
    (calculate [ { material_type := "Steel", quantity := some 1 } ]
        (some "Test") dbFailMat).response.assessment_id = some 7
    ∧ (calculate [ { material_type := "Steel", quantity := some 1 } ]
        (some "Test") dbFailMat).response.warnings = [saveFailWarning] := by
  constructor
  · with_unfolding_all decide
  · with_unfolding_all decide

/-- C6 amended: for every named calculation in which persistence fails,
the already-computed result (summary, scores, breakdowns,
recommendations) is still returned and the not-saved warning is
appended; the returned assessment_id is null when the assessment-row
INSERT itself fails, but is the freshly inserted id when the failure
occurs while saving the material rows. -/
theorem c6_persistence_decoupled (materials : List MaterialInput) (nm : String)
    (db : DbBehavior) :
    (db.assessmentInsert = none →
        (calculate materials (some nm) db).response =
          { (calculate materials none db).response with
              warnings := (calculate materials none db).response.warnings ++ [saveFailWarning] })
    ∧ (∀ id : ℕ, db.assessmentInsert = some id →
        (persistRows db id (sortByImpactDesc (processAll materials).breakdown) 0).2 = false →
        (calculate materials (some nm) db).response =
          { (calculate materials none db).response with
              assessment_id := some id,
              warnings := (calculate materials none db).response.warnings ++ [saveFailWarning] }) := by
  constructor
  · intro h
    simp only [calculate, h]
  · intro id h hfail
    simp only [calculate, h, hfail]
    rfl

/-- C6 witness: the amended theorem at one Steel material, name "T" and
a database whose assessment INSERT throws: the response equals the
unnamed calculation's response with the warning appended (and a null
assessment_id). -/
theorem c6_persistence_decoupled_witness :
    (calculate [ { material_type := "Steel", quantity := some 1 } ] (some "T") dbNoop).response =
      { (calculate [ { material_type := "Steel", quantity := some 1 } ] none dbNoop).response with
          warnings := (calculate [ { material_type := "Steel", quantity := some 1 } ]
            none dbNoop).response.warnings ++ [saveFailWarning] } :=
  (c6_persistence_decoupled [ { material_type := "Steel", quantity := some 1 } ] "T" dbNoop).1 rfl

/-- C7 counterexample: the claim imputes any quantity ≤ 0, but the
source's test (`!material.quantity || material.quantity === 0`) only
fires on a falsy quantity: the negative quantity -5 passes through
unimputed and without the ai_imputed flag. -/
theorem c7_negative_quantity_not_imputed :
    (basicProcessOne ⟨"steel", some (-5), some 5, some 50⟩).quantity = some (-5)
    ∧ (basicProcessOne ⟨"steel", some (-5), some 5, some 50⟩).ai_imputed = false := by
  constructor
  · with_unfolding_all decide
  · with_unfolding_all decide

/-- C7 amended: in the fallback path, a quantity that is missing or
equal to 0 (the JS falsy test; negative quantities pass through) is
imputed to 1.0; a falsy energy_consumption is estimated via the fixed
keyword table (steel 24.0, aluminum 154.0, plastic 76.0, glass 15.0,
concrete 1.0, wood 2.5, paper 20.0, matched as case-insensitive
substrings in that precedence order, default 10.0); a falsy
transport_distance is imputed to 100; each imputation sets
ai_imputed = true, and truthy fields are preserved. -/
theorem c7_fallback_imputation :
    (∀ m : AIMaterial,
        (jsFalsy m.quantity = true →
          (basicProcessOne m).quantity = some 1 ∧ (basicProcessOne m).ai_imputed = true)
      ∧ (jsFalsy m.quantity = false → (basicProcessOne m).quantity = m.quantity)
      ∧ (jsFalsy m.energy_consumption = true →
          (basicProcessOne m).energy_consumption
              = some (estimateEnergyConsumption m.material_type)
            ∧ (basicProcessOne m).ai_imputed = true)
      ∧ (jsFalsy m.energy_consumption = false →
          (basicProcessOne m).energy_consumption = m.energy_consumption)
      ∧ (jsFalsy m.transport_distance = true →
          (basicProcessOne m).transport_distance = some 100
            ∧ (basicProcessOne m).ai_imputed = true)
      ∧ (jsFalsy m.transport_distance = false →
          (basicProcessOne m).transport_distance = m.transport_distance))
    ∧ (∀ t : String,
        (strContains t.toLower "steel" = true → estimateEnergyConsumption t = 24)
      ∧ (strContains t.toLower "steel" = false →
          strContains t.toLower "aluminum" = true → estimateEnergyConsumption t = 154)
      ∧ (strContains t.toLower "steel" = false →
          strContains t.toLower "aluminum" = false →
          strContains t.toLower "plastic" = true → estimateEnergyConsumption t = 76)
      ∧ (strContains t.toLower "steel" = false →
          strContains t.toLower "aluminum" = false →
          strContains t.toLower "plastic" = false →
          strContains t.toLower "glass" = true → estimateEnergyConsumption t = 15)
      ∧ (strContains t.toLower "steel" = false →
          strContains t.toLower "aluminum" = false →
          strContains t.toLower "plastic" = false →
          strContains t.toLower "glass" = false →
          strContains t.toLower "concrete" = true → estimateEnergyConsumption t = 1)
      ∧ (strContains t.toLower "steel" = false →
          strContains t.toLower "aluminum" = false →
          strContains t.toLower "plastic" = false →
          strContains t.toLower "glass" = false →
          strContains t.toLower "concrete" = false →
          strContains t.toLower "wood" = true → estimateEnergyConsumption t = 5/2)
      ∧ (strContains t.toLower "steel" = false →
          strContains t.toLower "aluminum" = false →
          strContains t.toLower "plastic" = false →
          strContains t.toLower "glass" = false →
          strContains t.toLower "concrete" = false →
          strContains t.toLower "wood" = false →
          strContains t.toLower "paper" = true → estimateEnergyConsumption t = 20)
      ∧ (strContains t.toLower "steel" = false →
          strContains t.toLower "aluminum" = false →
          strContains t.toLower "plastic" = false →
          strContains t.toLower "glass" = false →
          strContains t.toLower "concrete" = false →
          strContains t.toLower "wood" = false →
          strContains t.toLower "paper" = false → estimateEnergyConsumption t = 10)) := by
  constructor
  · intro m
    refine ⟨?_, ?_, ?_, ?_, ?_, ?_⟩ <;>
      (intro h
       simp [basicProcessOne, h])
  · intro t
    refine ⟨?_, ?_, ?_, ?_, ?_, ?_, ?_, ?_⟩ <;>
      (intros
       simp [estimateEnergyConsumption, energyEstimates, List.find?, *])

/-- C7 witness: the amended theorem at a "glass" material with all three
fields missing: quantity becomes 1, energy the table's 15, transport 100,
and ai_imputed is set. -/
theorem c7_fallback_imputation_witness :
    (basicProcessOne { material_type := "glass" }).quantity = some 1
    ∧ (basicProcessOne { material_type := "glass" }).energy_consumption
        = some (estimateEnergyConsumption "glass")
    ∧ estimateEnergyConsumption "glass" = 15
    ∧ (basicProcessOne { material_type := "glass" }).transport_distance = some 100
    ∧ (basicProcessOne { material_type := "glass" }).ai_imputed = true :=
  ⟨((c7_fallback_imputation.1 { material_type := "glass" }).1 rfl).1,
   ((c7_fallback_imputation.1 { material_type := "glass" }).2.2.1 rfl).1,
   (c7_fallback_imputation.2 "glass").2.2.2.1
     (by with_unfolding_all decide) (by with_unfolding_all decide)
     (by with_unfolding_all decide) (by with_unfolding_all decide),
   ((c7_fallback_imputation.1 { material_type := "glass" }).2.2.2.2.1 rfl).1,
   ((c7_fallback_imputation.1 { material_type := "glass" }).1 rfl).2⟩

/-- Firing condition of the `high_impact` rule (lca.js line 216): the
breakdown is non-empty and its highest total impact exceeds 100. -/
def highImpactCond (mb : List BreakdownEntry) : Prop :=
  match (sortByImpactDesc mb).head? with
  | some h => 100 < h.total_impact
  | none => False

/-- Firing condition of the `category_optimization` rule (lca.js
lines 229-231): some category exists and the top CO2 category
exceeds 50. -/
def topCategoryCond (cb : List (String × CatData)) : Prop :=
  match (sortDescByCo2 cb).head? with
  | some p => 50 < p.2.co2
  | none => False

/-- Firing condition of the `energy_efficiency` rule (lca.js line 244). -/
def energyCond (mb : List BreakdownEntry) : Prop :=
  1000 < ((sortByImpactDesc mb).map (fun m => m.energy_impact)).sum

/-- Firing condition of the `transport_optimization` rule (lca.js
line 256). -/
def transportCond (mb : List BreakdownEntry) : Prop :=
  0 < ((sortByImpactDesc mb).filter (fun m => 10 < m.transport_impact)).length

theorem getLast?_append_general (l1 l2 l3 l4 : List Recommendation) :
    (l1 ++ l2 ++ l3 ++ l4 ++ [generalRec]).getLast? = some generalRec :=
  List.getLast?_concat _

/-- C8: the recommendation generator evaluates its rules in the fixed
order high_impact, category_optimization, energy_efficiency,
transport_optimization, general (the emitted type sequence is a sublist
of that five-element sequence); every rule whose condition holds fires
(each type is present iff its condition holds, independent of the
others); and the general recommendation is always present and always
last. -/
theorem c8_recommendation_rules (mb : List BreakdownEntry)
    (cb : List (String × CatData)) :
    (generateRecommendations mb cb).getLast? = some generalRec
    ∧ generalRec ∈ generateRecommendations mb cb
    ∧ List.Sublist ((generateRecommendations mb cb).map (fun r => r.type))
        ["high_impact", "category_optimization", "energy_efficiency",
         "transport_optimization", "general"]
    ∧ ("high_impact" ∈ (generateRecommendations mb cb).map (fun r => r.type)
        ↔ highImpactCond mb)
    ∧ ("category_optimization" ∈ (generateRecommendations mb cb).map (fun r => r.type)
        ↔ topCategoryCond cb)
    ∧ ("energy_efficiency" ∈ (generateRecommendations mb cb).map (fun r => r.type)
        ↔ energyCond mb)
    ∧ ("transport_optimization" ∈ (generateRecommendations mb cb).map (fun r => r.type)
        ↔ transportCond mb) := by
  simp only [generateRecommendations, highImpactCond, topCategoryCond, energyCond,
    transportCond]
  rcases (sortByImpactDesc mb).head? with _ | h <;>
    rcases (sortDescByCo2 cb).head? with _ | ⟨cat, d⟩ <;>
    dsimp only <;>
    split_ifs <;>
    refine ⟨getLast?_append_general _ _ _ _, by simp, ?_, ?_, ?_, ?_, ?_⟩ <;>
    first
      | decide
      | (simp_all [highImpactRec, categoryRec, energyRec, transportRec, generalRec] <;>
          decide)

/-- C8 witness: the theorem at the empty breakdowns, where only the
general recommendation fires and it is last. -/
theorem c8_recommendation_rules_witness :
    (generateRecommendations [] []).getLast? = some generalRec :=
  (c8_recommendation_rules [] []).1

/-- Every row produced by the material-row persistence loop is the
image of some breakdown entry under `persistRow`. -/
theorem persistRows_mem : ∀ (l : List BreakdownEntry) (db : DbBehavior) (id i : ℕ)
    (row : PersistedRow), row ∈ (persistRows db id l i).1 →
    ∃ e : BreakdownEntry, row = persistRow id e := by
  intro l
  induction l with
  | nil => intro db id i row h; simp [persistRows] at h
  | cons e tl ih =>
    intro db id i row h
    rw [persistRows] at h
    by_cases hins : db.materialInsertOk i
    · rw [if_pos hins] at h
      rcases List.mem_cons.mp h with heq | htail
      · exact ⟨e, heq⟩
      · exact ih db id (i + 1) row htail
    · rw [if_neg hins] at h
      simp at h

/-- C9: every row the calculate route writes to `assessment_materials`
carries energy_consumption = 0 and transport_distance = 0 — the source
passes literal zeros (lca.js lines 110-111) instead of the caller's
values, so the original per-material energy and transport inputs are not
recoverable from the persisted rows. -/
theorem c9_persisted_rows_zeroed (materials : List MaterialInput) (nm : String)
    (db : DbBehavior) (row : PersistedRow)
    (h : row ∈ (calculate materials (some nm) db).persisted) :
    row.energy_consumption = 0 ∧ row.transport_distance = 0 := by
  have hex : ∃ e : BreakdownEntry, row = persistRow ((db.assessmentInsert).getD 0) e := by
    unfold calculate at h
    dsimp only at h
    cases hdb : db.assessmentInsert with
    | none => rw [hdb] at h; simp at h
    | some id =>
      rw [hdb] at h
      dsimp only at h
      by_cases hok : (persistRows db id (sortByImpactDesc (processAll materials).breakdown) 0).2
      · rw [if_pos hok] at h
        simpa [hdb] using persistRows_mem _ db id 0 row h
      · rw [if_neg hok] at h
        simpa [hdb] using persistRows_mem _ db id 0 row h
  obtain ⟨e, rfl⟩ := hex
  exact ⟨rfl, rfl⟩

/-- The row that a successful named calculation on a single Steel input
writes to `assessment_materials` (used by the C9 witness). -/
def steelPersistedRow : PersistedRow :=
  { assessment_id := 1, material_type := "Steel", quantity := 100, unit := "kg",
    energy_consumption := 0, transport_distance := 0, co2_impact := 185,
    energy_impact := 2400, category := "Metals" }

/-- C9 witness: the single Steel row persisted by a successful named
calculation has zero energy_consumption and transport_distance. -/
theorem c9_persisted_rows_zeroed_witness :
    steelPersistedRow.energy_consumption = 0
    ∧ steelPersistedRow.transport_distance = 0 :=
  c9_persisted_rows_zeroed [ { material_type := "Steel", quantity := some 100 } ] "a" dbOk
    steelPersistedRow (by with_unfolding_all decide)

theorem sum_map_co2_transport (l : List BreakdownEntry) :
    (l.map (fun e => e.co2_impact + e.transport_impact * (1/10))).sum =
      (l.map (fun e => e.co2_impact)).sum
        + (l.map (fun e => e.transport_impact)).sum * (1/10) := by
  induction l with
  | nil => simp
  | cons hd tl ih =>
    simp only [List.map_cons, List.sum_cons, ih]
    ring

theorem sum_map_div_mul (l : List (String × CatData)) (T : ℚ) :
    (l.map (fun p => p.2.co2 / T * 100)).sum
      = (l.map (fun p => p.2.co2)).sum / T * 100 := by
  induction l with
  | nil => simp
  | cons hd tl ih =>
    simp only [List.map_cons, List.sum_cons, ih]
    ring

theorem sum_pos_of_mem_q : ∀ l : List ℚ, (∀ x ∈ l, 0 ≤ x) → (∃ x ∈ l, 0 < x) →
    0 < l.sum := by
  intro l
  induction l with
  | nil => intro _ hex; simp at hex
  | cons hd tl ih =>
    intro hnn hex
    have hhd : 0 ≤ hd := hnn hd (List.mem_cons_self hd tl)
    have htl_nn : ∀ x ∈ tl, 0 ≤ x := fun x hx => hnn x (List.mem_cons_of_mem hd hx)
    rcases hex with ⟨x, hx, hxpos⟩
    rcases List.mem_cons.mp hx with heq | htl
    · have hp : 0 < hd := heq ▸ hxpos
      have ht : 0 ≤ tl.sum := List.sum_nonneg htl_nn
      simp only [List.sum_cons]
      linarith
    · have ht : 0 < tl.sum := ih htl_nn ⟨x, htl, hxpos⟩
      simp only [List.sum_cons]
      linarith

/-- C10 counterexample: as stated the claim fails in both readings.
(a) A single unknown material of quantity 1 with transport distance
0.01 has positive transport impact (1/2000) and positive total CO2
(20001/20000), yet the reported (2-decimal-rounded) percentage list
sums to exactly 100, not strictly less. (b) With one material of
transport distance 10 and a second of transport distance -20
(parseFloat accepts negatives), some material has positive transport
impact and total CO2 (39/20) is positive, yet the percentages sum to
102.56 — strictly above 100 even before rounding. -/
theorem c10_percentage_sum_counterexample :
    ((∃ e ∈ (processAll [ { material_type := "Zz", quantity := some 1, transport_distance := some (1/100) } ]).breakdown,
        0 < e.transport_impact)
      ∧ 0 < (processAll [ { material_type := "Zz", quantity := some 1, transport_distance := some (1/100) } ]).totalCO2
      ∧ ((calculate [ { material_type := "Zz", quantity := some 1, transport_distance := some (1/100) } ] none dbNoop).response.category_breakdown.map
          (fun c => c.percentage)).sum = 100)
    ∧ ((∃ e ∈ (processAll [ { material_type := "Zz", quantity := some 1, transport_distance := some 10 },
                            { material_type := "Zz", quantity := some 1, transport_distance := some (-20) } ]).breakdown,
        0 < e.transport_impact)
      ∧ 0 < (processAll [ { material_type := "Zz", quantity := some 1, transport_distance := some 10 },
                          { material_type := "Zz", quantity := some 1, transport_distance := some (-20) } ]).totalCO2
      ∧ (100 : ℚ) < ((calculate [ { material_type := "Zz", quantity := some 1, transport_distance := some 10 },
                                   { material_type := "Zz", quantity := some 1, transport_distance := some (-20) } ] none dbNoop).response.category_breakdown.map
          (fun c => c.percentage)).sum) := by
  refine ⟨⟨?_, ?_, ?_⟩, ?_, ?_, ?_⟩ <;> with_unfolding_all decide

/-- C10 amended: when every material's transport impact is nonnegative,
at least one is positive and the total CO2 is positive, the exact
(pre-rounding) category percentages — category CO2 over the grand total
CO2 that includes the 10% transport contribution — sum to strictly less
than 100. (The reported percentages are rounded to 2 decimals and can
reach exactly 100, and negative transport distances can push the sum
above 100; see the counterexample.) -/
theorem c10_exact_percentage_sum_lt (materials : List MaterialInput)
    (hnn : ∀ e ∈ (processAll materials).breakdown, 0 ≤ e.transport_impact)
    (hpos : ∃ e ∈ (processAll materials).breakdown, 0 < e.transport_impact)
    (htot : 0 < (processAll materials).totalCO2) :
    ((processAll materials).catBreakdown.map
        (fun p => p.2.co2 / (processAll materials).totalCO2 * 100)).sum < 100 := by
  obtain ⟨h1, _, _, h4⟩ := processAll_inv materials
  have hsplit := sum_map_co2_transport (processAll materials).breakdown
  have hTpos : 0 < ((processAll materials).breakdown.map
      (fun e => e.transport_impact)).sum := by
    apply sum_pos_of_mem_q
    · intro x hx
      rcases List.mem_map.mp hx with ⟨e, he, rfl⟩
      exact hnn e he
    · rcases hpos with ⟨e, he, hepos⟩
      exact ⟨e.transport_impact, List.mem_map_of_mem _ he, hepos⟩
  rw [sum_map_div_mul, h4, div_mul_eq_mul_div, div_lt_iff₀ htot]
  rw [h1, hsplit] at htot ⊢
  linarith

/-- C10 witness: the amended bound at one unknown material of quantity 1
and transport distance 10 (transport impact 1/2, total CO2 21/20). -/
theorem c10_exact_percentage_sum_lt_witness :
    ((processAll [ { material_type := "Zz", quantity := some 1, transport_distance := some 10 } ]).catBreakdown.map
        (fun p => p.2.co2 / (processAll [ { material_type := "Zz", quantity := some 1, transport_distance := some 10 } ]).totalCO2 * 100)).sum < 100 :=
  c10_exact_percentage_sum_lt
    [ { material_type := "Zz", quantity := some 1, transport_distance := some 10 } ]
    (by with_unfolding_all decide) (by with_unfolding_all decide)
    (by with_unfolding_all decide)

end LCATool
